import Mathlib

/-!
Shallow embedding of weather_bot.py: a scheduled change-detection
notifier that scrapes a weather-story page for an image URL, fetches the
image, compares its SHA-256 digest to the one stored in DynamoDB, and on
change sends the image to Telegram and updates the stored record.

External effects (DynamoDB read/write, the two HTTP GETs, the Telegram
POST) are modelled by explicit inputs in a World structure and by a Trace
recording which calls the run performed.  The SHA-256 digest of the
image bytes is a library call, modelled as an abstract function field of
the World; the script only ever compares digests for string equality.
-/

namespace WeatherBot

/-- The single DynamoDB item keyed by setting = image_status.
Both attributes may individually be absent (item.get returns None). -/
structure StateRecord where
  last_run_date : Option String
  image_hash : Option String
  deriving DecidableEq

/-- The DynamoDB table: at most one record under the fixed primary key. -/
structure DB where
  item : Option StateRecord
  deriving DecidableEq

/-- get_last_run_info: returns (last_run_date, image_hash); on a
ClientError from the backend it prints and returns (None, None). -/
def get_last_run_info (read_fails : Bool) (db : DB) : Option String × Option String :=
  if read_fails then (none, none)
  else
    match db.item with
    | none => (none, none)
    | some it => (it.last_run_date, it.image_hash)

/-- update_run_info: one update_item call setting last_run_date and
image_hash together; a ClientError is printed and swallowed, leaving the
stored record unchanged. -/
def update_run_info (write_fails : Bool) (db : DB) (run_date image_hash : String) : DB :=
  if write_fails then db
  else { item := some { last_run_date := some run_date, image_hash := some image_hash } }

/-- An img element inside the graphicast container; its src attribute
may be absent. -/
structure ImgTag where
  src : Option String
  deriving DecidableEq

/-- The div with class graphicast: an optional first img element and an
optional description div (its stripped text). -/
structure GraphicastDiv where
  img : Option ImgTag
  description : Option String
  deriving DecidableEq

/-- The parsed weather-story page: the graphicast container may be
absent. -/
structure Page where
  graphicast : Option GraphicastDiv
  deriving DecidableEq

/-- image_url = image_tag.get(src) if image_tag else None. -/
def image_url_of (graphicast_div : GraphicastDiv) : Option String :=
  match graphicast_div.img with
  | some image_tag => image_tag.src
  | none => none

/-- description_text = description_tag.get_text(strip=True) if
description_tag else the empty string. -/
def description_text_of (graphicast_div : GraphicastDiv) : String :=
  match graphicast_div.description with
  | some t => t
  | none => ""

/-- extract_story_content: from the fetched page (none models a
RequestException on the page GET) produce (image_url, description_text)
or (None, None) on failure.  A falsy src (absent or empty string) is a
failure; a missing description div degrades to the empty string. -/
def extract_story_content (fetched_page : Option Page) : Option String × Option String :=
  match fetched_page with
  | none => (none, none)
  | some soup =>
    match soup.graphicast with
    | none => (none, none)
    | some graphicast_div =>
      match image_url_of graphicast_div with
      | none => (none, none)
      | some u =>
        if u = "" then (none, none)
        else (some u, some (description_text_of graphicast_div))

/-- No usable image reference inside the container: no img tag, no src
attribute, or an empty src (all falsy values of the extracted url). -/
def no_image_ref (graphicast_div : GraphicastDiv) : Prop :=
  image_url_of graphicast_div = none ∨ image_url_of graphicast_div = some ""

/-- The locator failure causes: the page GET failed, the graphicast
container is absent, or no image reference is found inside it. -/
def locator_fails (p : Option Page) : Prop :=
  p = none ∨
  (∃ pg, p = some pg ∧ pg.graphicast = none) ∨
  (∃ pg d, p = some pg ∧ pg.graphicast = some d ∧ no_image_ref d)

/-- Does content start with the given magic bytes? (bytes.startswith) -/
def startswith : List Nat → List Nat → Bool
  | [], _ => true
  | _ :: _, [] => false
  | b :: m, a :: t => decide (a = b) && startswith m t

/-- PNG magic bytes: 0x89 P N G. -/
def png_magic : List Nat := [0x89, 0x50, 0x4E, 0x47]

/-- JPEG magic bytes: 0xFF 0xD8. -/
def jpeg_magic : List Nat := [0xFF, 0xD8]

/-- GIF magic bytes: G I F 8. -/
def gif_magic : List Nat := [0x47, 0x49, 0x46, 0x38]

/-- The file extension chosen in send_telegram_photo: defaults to png;
PNG or JPEG magic keeps the default; GIF8 switches to gif. -/
def file_ext (image_content : List Nat) : String :=
  if startswith png_magic image_content || startswith jpeg_magic image_content then
    "png"
  else if startswith gif_magic image_content then
    "gif"
  else
    "png"

/-- The MIME type sent to Telegram for the photo attachment. -/
def mime_type (image_content : List Nat) : String :=
  "image/" ++ file_ext image_content

/-- The multipart payload send_telegram_photo posts to the Telegram
sendPhoto endpoint. -/
structure TelegramRequest where
  filename : String
  mime : String
  photo : List Nat
  caption : String
  deriving DecidableEq

/-- send_telegram_photo builds the files and data payload from the image
bytes and caption; the POST outcome only affects what is printed. -/
def send_telegram_photo (image_content : List Nat) (caption_text : String) : TelegramRequest :=
  { filename := "weatherstory." ++ file_ext image_content
    mime := mime_type image_content
    photo := image_content
    caption := caption_text }

/-- One performed Telegram POST and whether the endpoint accepted it. -/
structure DeliverCall where
  req : TelegramRequest
  send_ok : Bool
  deriving DecidableEq

/-- Record of the externally visible calls one run performed. -/
structure Trace where
  state_reads : Nat
  page_fetches : Nat
  fetch_calls : List String
  deliver_calls : List DeliverCall
  write_calls : List (String × String)
  deriving DecidableEq

/-- The trace of a run that performed no I/O at all. -/
def emptyTrace : Trace :=
  { state_reads := 0, page_fetches := 0, fetch_calls := [], deliver_calls := [], write_calls := [] }

/-- The trace after the DynamoDB read and the story-page fetch, before
any image fetch. -/
def startedTrace : Trace :=
  { state_reads := 1, page_fetches := 1, fetch_calls := [], deliver_calls := [], write_calls := [] }

/-- The Python comparison current_image_hash == last_image_hash, where
the right side may be None (a str never equals None). -/
def hash_matches (current : String) (stored : Option String) : Bool :=
  match stored with
  | some h => decide (current = h)
  | none => false

/-- The gate condition: main returns immediately when
now_eastern.hour < 3, so the run proceeds exactly when the hour is at
least 3. -/
def gate_proceed (hour : Nat) : Bool :=
  !(decide (hour < 3))

/-- All external inputs a single run can observe: the current Eastern
hour and date string, fault switches for the DynamoDB read and write,
the fetched story page (none models a page-GET failure), the image GET
by URL (none models a RequestException), the SHA-256 hex digest
function, and whether the Telegram POST succeeds. -/
structure World where
  hour : Nat
  today_str : String
  read_fails : Bool
  write_fails : Bool
  page : Option Page
  image_fetch : String → Option (List Nat)
  sha256_hexdigest : List Nat → String
  send_ok : Bool

/-- The main function of weather_bot.py: gate on the Eastern hour, read
the stored state, scrape the page for the image URL and caption, fetch
the image, hash it, and when the digest differs from the stored one send
the photo to Telegram and then update DynamoDB (the update is issued
after the send regardless of the send's outcome, because
send_telegram_photo swallows its exception).  Returns the final DB state
and the trace of performed calls. -/
def main (w : World) (db : DB) : DB × Trace :=
  if w.hour < 3 then
    (db, emptyTrace)
  else
    match (extract_story_content w.page).1 with
    | none => (db, startedTrace)
    | some image_url =>
      match w.image_fetch image_url with
      | none => (db, { startedTrace with fetch_calls := [image_url] })
      | some image_content =>
        if hash_matches (w.sha256_hexdigest image_content) (get_last_run_info w.read_fails db).2 then
          (db, { startedTrace with fetch_calls := [image_url] })
        else
          (update_run_info w.write_fails db w.today_str (w.sha256_hexdigest image_content),
           { startedTrace with
               fetch_calls := [image_url]
               deliver_calls :=
                 [{ req := send_telegram_photo image_content
                      ((extract_story_content w.page).2.getD "")
                    send_ok := w.send_ok }]
               write_calls := [(w.today_str, w.sha256_hexdigest image_content)] })

/-! Concrete sample inputs used to evaluate the model on closed runs. -/

/-- A sample scraped page with container, image and description all
present. -/
def samplePage : Page :=
  { graphicast := some
      { img := some { src := some "https://www.weather.gov/images/gsp/WeatherStory.gif" }
        description := some "Sunny and mild today." } }

/-- Sample fetched image bytes carrying the GIF magic. -/
def gifBytes : List Nat := [0x47, 0x49, 0x46, 0x38, 0x39, 0x61]

/-- A sample digest function: gifBytes hash to h2, anything else to
h1. -/
def sampleSha : List Nat → String :=
  fun content => if content = gifBytes then "h2" else "h1"

/-- A sample run environment: hour 7 Eastern, page scrape succeeds, the
image fetch returns gifBytes, the Telegram POST fails. -/
def sampleWorld : World :=
  { hour := 7
    today_str := "2024-01-02"
    read_fails := false
    write_fails := false
    page := some samplePage
    image_fetch := fun _ => some gifBytes
    sha256_hexdigest := sampleSha
    send_ok := false }

/-- Stored state from a previous delivery with a different hash. -/
def sampleDB : DB :=
  { item := some { last_run_date := some "2024-01-01", image_hash := some "h1" } }

/-- The image URL embedded in samplePage. -/
def sampleUrl : String := "https://www.weather.gov/images/gsp/WeatherStory.gif"

/-- Stored state whose hash already equals the digest of gifBytes. -/
def unchangedDB : DB :=
  { item := some { last_run_date := some "2024-01-01", image_hash := some "h2" } }

/-- Stored state identical to sampleDB except for the last run date. -/
def sampleDBaltDate : DB :=
  { item := some { last_run_date := some "2023-12-25", image_hash := some "h1" } }

/-- An empty table: no prior record at all. -/
def emptyDB : DB := { item := none }

/-- sampleWorld with the story-page GET failing. -/
def noPageWorld : World := { sampleWorld with page := none }

/-- sampleWorld invoked before 3 AM Eastern. -/
def earlyWorld : World := { sampleWorld with hour := 2 }

/-- sampleWorld with the DynamoDB read failing. -/
def readFailWorld : World := { sampleWorld with read_fails := true }

/-- sampleWorld with the DynamoDB update failing. -/
def failWriteWorld : World := { sampleWorld with write_fails := true }

/-- sampleWorld with the image GET failing. -/
def fetchFailWorld : World := { sampleWorld with image_fetch := fun _ => none }

/-! Helper lemmas about magic-byte sniffing. -/

/-- A byte string starting with the GIF magic starts with neither the
PNG nor the JPEG magic (the first bytes differ). -/
theorem gif_magic_only (content : List Nat) (h : startswith gif_magic content = true) :
    startswith png_magic content = false ∧ startswith jpeg_magic content = false := by
  cases content with
  | nil => simp [startswith, gif_magic] at h
  | cons a t =>
    simp only [gif_magic, png_magic, jpeg_magic, startswith, Bool.and_eq_true,
      decide_eq_true_eq] at h ⊢
    obtain ⟨ha, -⟩ := h
    subst ha
    simp [startswith]

/-! Claim theorems. -/

/-- C1 (code bug evaluation): in a run where the remote image changed
and the Telegram POST fails, main still issues the DynamoDB write with
the new digest and today's date and overwrites the stored state, because
send_telegram_photo swallows the delivery failure and main updates
unconditionally after the send — contradicting the code's own comment
that the update happens on successful send. -/
theorem c1_write_despite_failed_delivery :
    (main sampleWorld sampleDB).2.deliver_calls.map DeliverCall.send_ok = [false] ∧
    (main sampleWorld sampleDB).2.write_calls = [("2024-01-02", "h2")] ∧
    (main sampleWorld sampleDB).1 =
      { item := some { last_run_date := some "2024-01-02", image_hash := some "h2" } } := by
  decide

/-- C2 (counterexample): bytes beginning with the JPEG magic sequence
0xFF 0xD8 are tagged image/png, not image/jpeg. -/
theorem c2_jpeg_tagged_png :
    startswith jpeg_magic [0xFF, 0xD8, 0xFF, 0xE0] = true ∧
    mime_type [0xFF, 0xD8, 0xFF, 0xE0] = "image/png" ∧
    mime_type [0xFF, 0xD8, 0xFF, 0xE0] ≠ "image/jpeg" := by
  decide

/-- C2 (amended): the attachment media type is chosen by magic-byte
sniffing with GIF8 tagged image/gif, the PNG magic tagged image/png, and
the JPEG magic as well as any unrecognized prefix falling back to the
default tag image/png (not image/jpeg, and not a generic image type). -/
theorem c2_mime_sniffing (content : List Nat) :
    (startswith gif_magic content = true → mime_type content = "image/gif") ∧
    (startswith png_magic content = true → mime_type content = "image/png") ∧
    (startswith jpeg_magic content = true → mime_type content = "image/png") ∧
    (startswith gif_magic content = false ∧ startswith png_magic content = false ∧
      startswith jpeg_magic content = false → mime_type content = "image/png") := by
  refine ⟨fun h => ?_, fun h => ?_, fun h => ?_, fun h => ?_⟩
  · obtain ⟨hp, hj⟩ := gif_magic_only content h
    simp [mime_type, file_ext, h, hp, hj]
  · simp [mime_type, file_ext, h]
  · simp [mime_type, file_ext, h]
  · obtain ⟨hg, hp, hj⟩ := h
    simp [mime_type, file_ext, hg, hp, hj]

/-- C2 witness: the amended sniffing theorem applied to concrete GIF
bytes. -/
theorem c2_mime_sniffing_witness :
    startswith gif_magic gifBytes = true ∧ mime_type gifBytes = "image/gif" :=
  ⟨by decide, (c2_mime_sniffing gifBytes).1 (by decide)⟩

/-- C3: when the digest of the fetched bytes equals the stored digest,
neither the Telegram send nor the DynamoDB write is invoked and the
stored state is unchanged after the run. -/
theorem c3_unchanged_idempotence (w : World) (db : DB) (url : String) (content : List Nat)
    (hurl : (extract_story_content w.page).1 = some url)
    (hfetch : w.image_fetch url = some content)
    (hstored : (get_last_run_info w.read_fails db).2 = some (w.sha256_hexdigest content)) :
    (main w db).1 = db ∧ (main w db).2.deliver_calls = [] ∧
    (main w db).2.write_calls = [] := by
  by_cases hh : w.hour < 3
  · simp [main, hh, emptyTrace]
  · simp [main, hh, hurl, hfetch, hstored, hash_matches, startedTrace]

/-- C3 witness: the unchanged-digest theorem at a concrete run. -/
theorem c3_unchanged_idempotence_witness :
    (main sampleWorld unchangedDB).1 = unchangedDB ∧
    (main sampleWorld unchangedDB).2.deliver_calls = [] ∧
    (main sampleWorld unchangedDB).2.write_calls = [] :=
  c3_unchanged_idempotence sampleWorld unchangedDB sampleUrl gifBytes
    (by decide) (by decide) (by decide)

/-- C4: with no stored digest, the fetched image is treated as new
regardless of content and the Telegram send is attempted exactly once
with the fetched bytes and the scraped caption. -/
theorem c4_absent_state_delivers (w : World) (db : DB) (url : String) (content : List Nat)
    (hgate : 3 ≤ w.hour)
    (hurl : (extract_story_content w.page).1 = some url)
    (hfetch : w.image_fetch url = some content)
    (hstored : (get_last_run_info w.read_fails db).2 = none) :
    (main w db).2.deliver_calls =
      [{ req := send_telegram_photo content ((extract_story_content w.page).2.getD "")
         send_ok := w.send_ok }] := by
  have hh : ¬ w.hour < 3 := by omega
  simp [main, hh, hurl, hfetch, hstored, hash_matches]

/-- C4 witness: the absent-state theorem at a concrete run. -/
theorem c4_absent_state_delivers_witness :
    (main sampleWorld emptyDB).2.deliver_calls =
      [{ req := send_telegram_photo gifBytes ((extract_story_content sampleWorld.page).2.getD "")
         send_ok := sampleWorld.send_ok }] :=
  c4_absent_state_delivers sampleWorld emptyDB sampleUrl gifBytes
    (by decide) (by decide) (by decide) (by decide)

/-- C5: a failing DynamoDB read degrades to (None, None) instead of
aborting, and the run then performs exactly the calls it would perform
with an empty table and a healthy read. -/
theorem c5_read_failure_degrades (w : World) (db : DB) (h : w.read_fails = true) :
    get_last_run_info w.read_fails db = (none, none) ∧
    (main w db).2 = (main { w with read_fails := false } { item := none }).2 := by
  refine ⟨by simp [get_last_run_info, h], ?_⟩
  by_cases hh : w.hour < 3
  · simp [main, hh]
  · cases hext : (extract_story_content w.page).1 with
    | none => simp [main, hh, hext]
    | some url =>
      cases hfet : w.image_fetch url with
      | none => simp [main, hh, hext, hfet]
      | some content =>
        simp [main, hh, hext, hfet, get_last_run_info, h, hash_matches]

/-- C5 witness: the read-failure theorem at a concrete run. -/
theorem c5_read_failure_degrades_witness :
    get_last_run_info readFailWorld.read_fails sampleDB = (none, none) ∧
    (main readFailWorld sampleDB).2 =
      (main { readFailWorld with read_fails := false } { item := none }).2 :=
  c5_read_failure_degrades readFailWorld sampleDB (by decide)

/-- C6: the locator fails exactly when the page GET fails, the
graphicast container is absent, or no image reference is found inside
it; a missing description div is not a failure and the caption degrades
to the empty string; and on locator failure the run ends with no image
fetch, no delivery, no write and unchanged state. -/
theorem c6_locator (w : World) (db : DB) :
    ((extract_story_content w.page).1 = none ↔ locator_fails w.page) ∧
    (∀ pg d, w.page = some pg → pg.graphicast = some d → d.description = none →
      ¬ no_image_ref d → (extract_story_content w.page).2 = some "") ∧
    ((extract_story_content w.page).1 = none →
      (main w db).1 = db ∧ (main w db).2.fetch_calls = [] ∧
      (main w db).2.deliver_calls = [] ∧ (main w db).2.write_calls = []) := by
  refine ⟨?_, ?_, ?_⟩
  · cases hp : w.page with
    | none => simp [extract_story_content, locator_fails]
    | some pg =>
      cases hg : pg.graphicast with
      | none => simp [extract_story_content, hg, locator_fails]
      | some d =>
        cases hi : image_url_of d with
        | none => simp [extract_story_content, hg, hi, locator_fails, no_image_ref]
        | some u =>
          by_cases hu : u = ""
          · subst hu
            simp [extract_story_content, hg, hi, locator_fails, no_image_ref]
          · simp [extract_story_content, hg, hi, hu, locator_fails, no_image_ref]
  · intro pg d hpg hg hdesc hno
    cases hi : image_url_of d with
    | none => exact absurd (Or.inl hi) hno
    | some u =>
      by_cases hu : u = ""
      · exact absurd (Or.inr (hu ▸ hi)) hno
      · simp [extract_story_content, hpg, hg, hi, hu, description_text_of, hdesc]
  · intro hfail
    by_cases hh : w.hour < 3
    · simp [main, hh, emptyTrace]
    · simp [main, hh, hfail, startedTrace]

/-- C6 witness: the locator theorem at a run whose page GET failed. -/
theorem c6_locator_witness :
    (main noPageWorld sampleDB).1 = sampleDB ∧
    (main noPageWorld sampleDB).2.fetch_calls = [] ∧
    (main noPageWorld sampleDB).2.deliver_calls = [] ∧
    (main noPageWorld sampleDB).2.write_calls = [] :=
  (c6_locator noPageWorld sampleDB).2.2 (by decide)

/-- C7: the gate is a pure function of the Eastern hour accepting
exactly the hours at or after 3 AM, and a rejected run performs no call
at all and leaves the stored state unchanged. -/
theorem c7_gate (w : World) (db : DB) :
    (gate_proceed w.hour = true ↔ 3 ≤ w.hour) ∧
    (gate_proceed w.hour = false → main w db = (db, emptyTrace)) := by
  constructor
  · constructor
    · intro h
      simp only [gate_proceed, Bool.not_eq_true', decide_eq_false_iff_not] at h
      omega
    · intro h
      simp only [gate_proceed, Bool.not_eq_true', decide_eq_false_iff_not]
      omega
  · intro h
    have hh : w.hour < 3 := by
      by_contra hc
      simp [gate_proceed, hc] at h
    simp [main, hh]

/-- C7 witness: the gate theorem at hour 2 Eastern. -/
theorem c7_gate_witness :
    gate_proceed earlyWorld.hour = false ∧
    main earlyWorld sampleDB = (sampleDB, emptyTrace) :=
  ⟨by decide, (c7_gate earlyWorld sampleDB).2 (by decide)⟩

/-- C8: when the image GET fails, the run aborts with exactly one fetch
attempt (no retry), no delivery, no write and unchanged state. -/
theorem c8_fetch_failure (w : World) (db : DB) (url : String)
    (hgate : 3 ≤ w.hour)
    (hurl : (extract_story_content w.page).1 = some url)
    (hfail : w.image_fetch url = none) :
    (main w db).1 = db ∧ (main w db).2.fetch_calls = [url] ∧
    (main w db).2.deliver_calls = [] ∧ (main w db).2.write_calls = [] := by
  have hh : ¬ w.hour < 3 := by omega
  simp [main, hh, hurl, hfail, startedTrace]

/-- C8 witness: the fetch-failure theorem at a concrete run. -/
theorem c8_fetch_failure_witness :
    (main fetchFailWorld sampleDB).1 = sampleDB ∧
    (main fetchFailWorld sampleDB).2.fetch_calls = [sampleUrl] ∧
    (main fetchFailWorld sampleDB).2.deliver_calls = [] ∧
    (main fetchFailWorld sampleDB).2.write_calls = [] :=
  c8_fetch_failure fetchFailWorld sampleDB sampleUrl (by decide) (by decide) (by decide)

/-- C9: whenever the run changes the stored state it does so through a
single update call carrying the date and the hash together, and a
failing update leaves the state unchanged while the run still performs
exactly the calls of a run with a healthy write (the failure is not
escalated). -/
theorem c9_atomic_write (w : World) (db : DB) :
    ((main w db).1 ≠ db →
      ∃ d h, (main w db).2.write_calls = [(d, h)] ∧
        (main w db).1 = { item := some { last_run_date := some d, image_hash := some h } }) ∧
    (w.write_fails = true →
      (main w db).1 = db ∧ (main w db).2 = (main { w with write_fails := false } db).2) := by
  by_cases hh : w.hour < 3
  · exact ⟨fun hne => absurd (by simp [main, hh]) hne, fun hw => ⟨by simp [main, hh], by simp [main, hh]⟩⟩
  · cases hext : (extract_story_content w.page).1 with
    | none =>
      exact ⟨fun hne => absurd (by simp [main, hh, hext]) hne,
        fun hw => ⟨by simp [main, hh, hext], by simp [main, hh, hext]⟩⟩
    | some url =>
      cases hfet : w.image_fetch url with
      | none =>
        exact ⟨fun hne => absurd (by simp [main, hh, hext, hfet]) hne,
          fun hw => ⟨by simp [main, hh, hext, hfet], by simp [main, hh, hext, hfet]⟩⟩
      | some content =>
        cases hm : hash_matches (w.sha256_hexdigest content) (get_last_run_info w.read_fails db).2 with
        | true =>
          exact ⟨fun hne => absurd (by simp [main, hh, hext, hfet, hm]) hne,
            fun hw => ⟨by simp [main, hh, hext, hfet, hm], by simp [main, hh, hext, hfet, hm]⟩⟩
        | false =>
          constructor
          · intro hne
            refine ⟨w.today_str, w.sha256_hexdigest content, by simp [main, hh, hext, hfet, hm], ?_⟩
            by_cases hwf : w.write_fails = true
            · exact absurd (by simp [main, hh, hext, hfet, hm, update_run_info, hwf]) hne
            · rw [Bool.not_eq_true] at hwf
              simp [main, hh, hext, hfet, hm, update_run_info, hwf]
          · intro hw
            exact ⟨by simp [main, hh, hext, hfet, hm, update_run_info, hw],
              by simp [main, hh, hext, hfet, hm]⟩

/-- C9 witness: the atomic-write theorem at a run with a failing
update. -/
theorem c9_atomic_write_witness :
    (main failWriteWorld sampleDB).1 = sampleDB ∧
    (main failWriteWorld sampleDB).2 =
      (main { failWriteWorld with write_fails := false } sampleDB).2 :=
  (c9_atomic_write failWriteWorld sampleDB).2 (by decide)

/-- C10: the calls a run performs depend on the stored record only
through the stored hash: two runs reading the same stored hash behave
identically even when the stored last-run dates differ. -/
theorem c10_date_noninterference (w : World) (db1 db2 : DB)
    (hsame : (get_last_run_info w.read_fails db1).2 = (get_last_run_info w.read_fails db2).2) :
    (main w db1).2 = (main w db2).2 := by
  by_cases hh : w.hour < 3
  · simp [main, hh]
  · cases hext : (extract_story_content w.page).1 with
    | none => simp [main, hh, hext]
    | some url =>
      cases hfet : w.image_fetch url with
      | none => simp [main, hh, hext, hfet]
      | some content =>
        simp [main, hh, hext, hfet, hsame]
        split <;> rfl

/-- C10 witness: the date-noninterference theorem at two stored records
differing only in the date. -/
theorem c10_date_noninterference_witness :
    (main sampleWorld sampleDB).2 = (main sampleWorld sampleDBaltDate).2 :=
  c10_date_noninterference sampleWorld sampleDB sampleDBaltDate (by decide)

end WeatherBot
